import Mathlib

/-!
Verification of the SARS eFiling automation service (`sars.py`).

The service drives a Selenium browser: `login_action` fills the portal's
login form, `scrape_organization_dashboard` scrapes the dashboard page,
`run_action_sync` dispatches an action string and manages the driver
lifetime, and the FastAPI endpoints `run` (POST /run) and `ping`
(GET /ping) shape JSON responses.

The embedding is a shallow one.  Every Selenium / BeautifulSoup call is an
effect against an external browser, so each call site is modelled by an
oracle field of an `Env` value: an `Except Err Unit` saying whether that
concrete call raises, plus plain data fields for values the code reads
back (the current URL, the page HTML, the extracted text, the wall-clock
timestamp).  Each function returns the list of browser events it performed
(in order) together with its Python return value; an uncaught Python
exception is an `Except.error`.  JSON dictionaries are association lists
of string keys and string values, looked up with `List.lookup`, mirroring
the literal dicts built by the source.
-/

set_option autoImplicit false

namespace Sars

/-- Error payload of a raised Python exception (its message text). -/
abbrev Err := String

/-- A JSON response dictionary: string keys to string values, as built
literally by the source. -/
abbrev Dict := List (String × String)

/-- Selenium locator strategies used by the source (`By.ID`, `By.XPATH`,
`By.TAG_NAME`). -/
inductive By where
  | id : By
  | xpath : By
  | tagName : By
deriving DecidableEq

/-- One observable browser-driver event, in the order the source performs
them.  `sleepTenths n` records `time.sleep` of `n/10` seconds (0.5 s and
3 s appear in the source), avoiding floating point. -/
inductive Ev where
  | createDriver : Ev
  | navigate : String → Ev
  | waitPresence : By → String → Ev
  | clearField : By → String → Ev
  | sendKeys : By → String → String → Ev
  | scrollIntoView : By → String → Ev
  | sleepTenths : Nat → Ev
  | click : By → String → Ev
  | jsClick : By → String → Ev
  | waitUrlContains : String → Ev
  | waitUrlAway : Ev
  | saveScreenshot : String → Ev
  | readPageSource : Ev
  | quit : Ev
deriving DecidableEq

/-- The external world: one outcome oracle per Selenium call site in the
source, plus the data values the code reads back from the browser. -/
structure Env where
  /-- outcome of `create_driver()` (driver construction). -/
  createDriverR : Except Err Unit
  /-- outcome of `driver.get(login url)`. -/
  navLoginR : Except Err Unit
  /-- outcome of the wait for presence of id `username`. -/
  waitUsernameR : Except Err Unit
  /-- outcome of `username_input.clear()`. -/
  clearUsernameR : Except Err Unit
  /-- outcome of `username_input.send_keys(...)`. -/
  sendUsernameR : Except Err Unit
  /-- outcome of the wait for presence of the Next button XPath. -/
  waitNextBtnR : Except Err Unit
  /-- outcome of the scroll-into-view script on the Next button. -/
  scrollNextR : Except Err Unit
  /-- outcome of `next_btn.click()`. -/
  clickNextR : Except Err Unit
  /-- outcome of the JavaScript click fallback on the Next button. -/
  jsClickNextR : Except Err Unit
  /-- outcome of the wait for the URL to contain `/app/auth/password`. -/
  waitPasswordUrlR : Except Err Unit
  /-- outcome of the wait for presence of id `password`. -/
  waitPasswordR : Except Err Unit
  /-- outcome of `password_input.clear()`. -/
  clearPasswordR : Except Err Unit
  /-- outcome of `password_input.send_keys(...)`. -/
  sendPasswordR : Except Err Unit
  /-- outcome of the wait for presence of the Login button XPath. -/
  waitLoginBtnR : Except Err Unit
  /-- outcome of the scroll-into-view script on the Login button. -/
  scrollLoginR : Except Err Unit
  /-- outcome of `login_btn.click()`. -/
  clickLoginR : Except Err Unit
  /-- outcome of the JavaScript click fallback on the Login button. -/
  jsClickLoginR : Except Err Unit
  /-- the value of `driver.current_url` observed by the final wait's
  lambda and by the success return. -/
  currentUrl : String
  /-- message of the timeout exception the final wait raises when its
  condition never becomes true. -/
  finalWaitErr : Err
  /-- `int(time.time())` at the moment a login failure is handled. -/
  timestamp : Nat
  /-- outcome of `driver.get(dashboard url)`. -/
  navDashboardR : Except Err Unit
  /-- outcome of the wait for presence of the `body` tag. -/
  waitBodyR : Except Err Unit
  /-- outcome of reading `driver.page_source`. -/
  pageSourceR : Except Err Unit
  /-- the HTML text `driver.page_source` yields when it succeeds. -/
  pageHtml : String
  /-- BeautifulSoup's `get_text(separator, strip)` extraction. -/
  soupGetText : String → String
  /-- when `some e`, the executor future raised (e.g. the 300 s
  `future.result` timeout) with message `e`; `none` means the pooled
  task completed and its value was returned. -/
  poolR : Option Err

/-- URL of the portal login page (`login_action`). -/
def loginUrl : String := "https://secure.sarsefiling.co.za/app/login"

/-- URL of the dashboard page (`scrape_organization_dashboard`). -/
def dashboardUrl : String := "https://secure.sarsefiling.co.za/app/dashboard/organization"

/-- XPath of the Next button on the login page. -/
def nextBtnXpath : String := "//button[.//span[normalize-space(text())='Next']]"

/-- XPath of the Login button on the password page. -/
def loginBtnXpath : String := "//button[.//span[normalize-space(text())='Login']]"

/-- Whether `n` occurs at the start of `h` (character lists). -/
def listStarts : List Char → List Char → Bool
  | [], _ => true
  | _ :: _, [] => false
  | c :: cs, d :: ds => c == d && listStarts cs ds

/-- Whether `n` occurs somewhere inside `h` (character lists). -/
def listHas (n : List Char) : List Char → Bool
  | [] => listStarts n []
  | d :: ds => listStarts n (d :: ds) || listHas n ds

/-- Python's `needle in hay` on strings. -/
def strContains (hay needle : String) : Bool :=
  listHas needle.toList hay.toList

/-- ASCII lower-casing of one character (the fragment of Python's
`str.lower` exercised by the action names and portal URLs). -/
def lowerChar (c : Char) : Char :=
  if 65 ≤ c.toNat ∧ c.toNat ≤ 90 then Char.ofNat (c.toNat + 32) else c

/-- Python's `s.lower()` on the ASCII strings this service handles. -/
def lowerStr (s : String) : String := ⟨s.data.map lowerChar⟩

/-- The final wait's lambda in `login_action`:
`"/app/login" not in d.current_url.lower() and "/app/auth/password" not in d.current_url.lower()`. -/
def loginExitCond (u : String) : Bool :=
  !(strContains (lowerStr u) "/app/login") && !(strContains (lowerStr u) "/app/auth/password")

/-- One primitive statement of a handler: the event it performs, the
oracle outcome of that call, and — for the two guarded clicks — the
fallback event and its outcome used when the first call raises
(`try: btn.click() except: driver.execute_script(...)`). -/
structure Step where
  ev : Ev
  res : Except Err Unit
  fallback : Option (Ev × Except Err Unit)

/-- Events a step performs: the fallback runs only when the primary call
raises. -/
def stepEvs (s : Step) : List Ev :=
  match s.res with
  | .ok _ => [s.ev]
  | .error _ =>
    match s.fallback with
    | none => [s.ev]
    | some (e2, _) => [s.ev, e2]

/-- Result of a step: a raising primary call is recovered by the fallback
when one is present. -/
def stepRes (s : Step) : Except Err Unit :=
  match s.res with
  | .ok _ => .ok ()
  | .error e =>
    match s.fallback with
    | none => .error e
    | some (_, r2) => r2

/-- Run steps in order, stopping at the first unrecovered exception;
returns the events performed and the overall outcome. -/
def runSteps : List Step → List Ev × Except Err Unit
  | [] => ([], .ok ())
  | s :: rest =>
    match stepRes s with
    | .ok _ =>
      let r := runSteps rest
      (stepEvs s ++ r.1, r.2)
    | .error e => (stepEvs s, .error e)

/-- The statements of the `try` body of `login_action`, lines 69–97 of the
source, one step per Selenium call, in source order.  The last step is the
final wait, whose outcome is the embedded lambda `loginExitCond` evaluated
on the observed URL. -/
def loginSteps (env : Env) (username password : String) : List Step :=
  [ ⟨.navigate loginUrl, env.navLoginR, none⟩,
    ⟨.waitPresence By.id "username", env.waitUsernameR, none⟩,
    ⟨.clearField By.id "username", env.clearUsernameR, none⟩,
    ⟨.sendKeys By.id "username" username, env.sendUsernameR, none⟩,
    ⟨.waitPresence By.xpath nextBtnXpath, env.waitNextBtnR, none⟩,
    ⟨.scrollIntoView By.xpath nextBtnXpath, env.scrollNextR, none⟩,
    ⟨.sleepTenths 5, .ok (), none⟩,
    ⟨.click By.xpath nextBtnXpath, env.clickNextR,
      some (.jsClick By.xpath nextBtnXpath, env.jsClickNextR)⟩,
    ⟨.waitUrlContains "/app/auth/password", env.waitPasswordUrlR, none⟩,
    ⟨.waitPresence By.id "password", env.waitPasswordR, none⟩,
    ⟨.clearField By.id "password", env.clearPasswordR, none⟩,
    ⟨.sendKeys By.id "password" password, env.sendPasswordR, none⟩,
    ⟨.waitPresence By.xpath loginBtnXpath, env.waitLoginBtnR, none⟩,
    ⟨.scrollIntoView By.xpath loginBtnXpath, env.scrollLoginR, none⟩,
    ⟨.sleepTenths 5, .ok (), none⟩,
    ⟨.click By.xpath loginBtnXpath, env.clickLoginR,
      some (.jsClick By.xpath loginBtnXpath, env.jsClickLoginR)⟩,
    ⟨.waitUrlAway,
      (if loginExitCond env.currentUrl then .ok () else .error env.finalWaitErr), none⟩ ]

/-- Success dictionary of `login_action`. -/
def loginOkDict (env : Env) : Dict :=
  [("status", "ok"), ("message", "Login successful"), ("current_url", env.currentUrl)]

/-- `f"screenshot_{ts}.png"`. -/
def screenshotPath (env : Env) : String :=
  "screenshot_" ++ toString env.timestamp ++ ".png"

/-- Failure dictionary of `login_action` for exception message `e`. -/
def loginFailDict (env : Env) (e : Err) : Dict :=
  [("status", "error"), ("message", "Login failed: " ++ e),
   ("screenshot", screenshotPath env)]

/-- The `try` body of `login_action`: run the login steps and, on
success, build the ok dictionary from the observed current URL. -/
def loginTry (env : Env) (username password : String) : List Ev × Except Err Dict :=
  match runSteps (loginSteps env username password) with
  | (evs, .ok _) => (evs, .ok (loginOkDict env))
  | (evs, .error e) => (evs, .error e)

/-- `login_action` (source lines 67–108): the try body wrapped in the
`except` clause, which saves a screenshot (its own exception swallowed)
and returns the failure dictionary.  The Python function always returns a
dict, so the result type is `Dict`, not `Except`. -/
def login_action (env : Env) (username password : String) : List Ev × Dict :=
  match loginTry env username password with
  | (evs, .ok d) => (evs, d)
  | (evs, .error e) =>
    (evs ++ [.saveScreenshot (screenshotPath env)], loginFailDict env e)

/-- Success dictionary of `scrape_organization_dashboard`. -/
def scrapeOkDict (env : Env) : Dict :=
  [("status", "ok"), ("dashboard_url", dashboardUrl),
   ("text", env.soupGetText env.pageHtml)]

/-- Failure dictionary of `scrape_organization_dashboard` (no screenshot). -/
def scrapeFailDict (e : Err) : Dict :=
  [("status", "error"), ("message", "scrape_organization_dashboard failed: " ++ e)]

/-- The statements of the `try` body of `scrape_organization_dashboard`,
source lines 113–119, in order. -/
def scrapeSteps (env : Env) : List Step :=
  [ ⟨.navigate dashboardUrl, env.navDashboardR, none⟩,
    ⟨.waitPresence By.tagName "body", env.waitBodyR, none⟩,
    ⟨.sleepTenths 30, .ok (), none⟩,
    ⟨.readPageSource, env.pageSourceR, none⟩ ]

/-- The `try` body of `scrape_organization_dashboard`. -/
def scrapeTry (env : Env) : List Ev × Except Err Dict :=
  match runSteps (scrapeSteps env) with
  | (evs, .ok _) => (evs, .ok (scrapeOkDict env))
  | (evs, .error e) => (evs, .error e)

/-- `scrape_organization_dashboard` (source lines 111–126): the try body
with its `except` clause building the failure dictionary. -/
def scrape_organization_dashboard (env : Env) : List Ev × Dict :=
  match scrapeTry env with
  | (evs, .ok d) => (evs, d)
  | (evs, .error e) => (evs, scrapeFailDict e)

/-- Python truthiness of `payload.get(key)`: `None` and the empty string
are falsy. -/
def truthy : Option String → Bool
  | none => false
  | some s => !(s == "")

/-- `{"status": "error", "message": "Missing 'username' or 'password'"}`. -/
def missingCredsDict : Dict :=
  [("status", "error"), ("message", "Missing 'username' or 'password'")]

/-- Unknown-action dictionary of `run_action_sync`. -/
def unknownActionDict (a : String) : Dict :=
  [("status", "error"), ("message", "Unknown action '" ++ a ++ "'")]

/-- Catch-all dictionary of `run_action_sync` for exception message `e`. -/
def unexpectedDict (e : Err) : Dict :=
  [("status", "error"), ("message", "Unexpected error: " ++ e)]

/-- The `try` body of `run_action_sync`, source lines 132–154: create the
driver, read the credentials, and dispatch on `action.lower()`.  For
`scrape_dashboard` the login handler runs first and the scrape runs only
when the login result's status is `"ok"`. -/
def run_action_body (env : Env) (action : String) (payload : Dict) :
    List Ev × Except Err Dict :=
  match env.createDriverR with
  | .error e => ([.createDriver], .error e)
  | .ok _ =>
    let username := List.lookup "username" payload
    let password := List.lookup "password" payload
    if lowerStr action = "login" then
      if !truthy username || !truthy password then
        ([.createDriver], .ok missingCredsDict)
      else
        let r := login_action env (username.getD "") (password.getD "")
        (.createDriver :: r.1, .ok r.2)
    else if lowerStr action = "scrape_dashboard" then
      if !truthy username || !truthy password then
        ([.createDriver], .ok missingCredsDict)
      else
        let r := login_action env (username.getD "") (password.getD "")
        if List.lookup "status" r.2 = some "ok" then
          let s := scrape_organization_dashboard env
          (.createDriver :: (r.1 ++ s.1), .ok s.2)
        else
          (.createDriver :: r.1, .ok r.2)
    else
      ([.createDriver], .ok (unknownActionDict action))

/-- `run_action_sync` (source lines 129–163): the body wrapped in the
catch-all `except` clause, followed by the `finally` clause that quits
the driver (its own exception swallowed) whenever one was created.  The
driver variable is non-`None` exactly when `create_driver` succeeded. -/
def run_action_sync (env : Env) (action : String) (payload : Dict) :
    List Ev × Dict :=
  let r :=
    match run_action_body env action payload with
    | (evs, .ok d) => (evs, d)
    | (evs, .error e) => (evs, unexpectedDict e)
  if env.createDriverR.isOk then (r.1 ++ [.quit], r.2) else r

/-- `{"status": "error", "message": "Missing 'action'"}`. -/
def missingActionDict : Dict :=
  [("status", "error"), ("message", "Missing 'action'")]

/-- Catch-all dictionary of the `run` endpoint. -/
def serverErrDict (e : Err) : Dict :=
  [("status", "error"), ("message", "Unexpected server error: " ++ e)]

/-- An incoming POST /run request: `await request.json()` either raises or
yields a body, from which the endpoint reads `body.get("action")` (absent
is `none`) and `body.get("payload", {})`. -/
structure Req where
  parsed : Except Err (Option String × Dict)

/-- The POST /run endpoint (source lines 166–180): parse the body, reject
a falsy action, submit `run_action_sync` to the executor and return its
result; any exception — body parsing, pool submission or the 300 s result
timeout — becomes the server-error dictionary. -/
def run (env : Env) (req : Req) : Dict :=
  match req.parsed with
  | .error e => serverErrDict e
  | .ok (act?, payload) =>
    match act? with
    | none => missingActionDict
    | some a =>
      if a = "" then missingActionDict
      else
        match env.poolR with
        | some e => serverErrDict e
        | none => (run_action_sync env a payload).2

/-- The GET /ping endpoint (source lines 182–184). -/
def ping : Dict := [("message", "ping - server up")]

/-- The module-level `persistent_driver`, abstracted to whether a driver
object is stored. -/
abbrev AppState := Option Unit

/-- `get_driver` (source lines 60–64): lazily create and cache a driver in
`persistent_driver`.  Defined for completeness; no endpoint calls it. -/
def get_driver (env : Env) (persistent : AppState) : AppState × Except Err Unit :=
  match persistent with
  | some d => (some d, .ok ())
  | none =>
    match env.createDriverR with
    | .ok _ => (some (), .ok ())
    | .error e => (none, .error e)

/-- A request the server can receive on either endpoint. -/
inductive ServerReq where
  | runReq : Req → ServerReq
  | pingReq : ServerReq

/-- Handling one request: both endpoint bodies mention no module-level
mutable state, so `persistent_driver` passes through unchanged. -/
def handleReq (env : Env) (r : ServerReq) (s : AppState) : AppState × Dict :=
  match r with
  | .runReq rq => (s, run env rq)
  | .pingReq => (s, ping)

/-- The server's `persistent_driver` state after serving a list of
requests. -/
def serverRun (env : Env) : List ServerReq → AppState → AppState
  | [], s => s
  | r :: rest, s => serverRun env rest (handleReq env r s).1

/-- Concatenation of the events of each step. -/
def evList : List Step → List Ev
  | [] => []
  | s :: rest => stepEvs s ++ evList rest

/-- The full event trace of a successful login: the fixed source order,
with `b1`/`b2` telling whether the primary Next/Login click succeeded
(`false` inserts the JavaScript fallback click). -/
def loginOkTrace (u p : String) (b1 b2 : Bool) : List Ev :=
  [.navigate loginUrl, .waitPresence By.id "username", .clearField By.id "username",
   .sendKeys By.id "username" u, .waitPresence By.xpath nextBtnXpath,
   .scrollIntoView By.xpath nextBtnXpath, .sleepTenths 5, .click By.xpath nextBtnXpath]
  ++ (if b1 then [] else [.jsClick By.xpath nextBtnXpath])
  ++ [.waitUrlContains "/app/auth/password", .waitPresence By.id "password",
      .clearField By.id "password", .sendKeys By.id "password" p,
      .waitPresence By.xpath loginBtnXpath, .scrollIntoView By.xpath loginBtnXpath,
      .sleepTenths 5, .click By.xpath loginBtnXpath]
  ++ (if b2 then [] else [.jsClick By.xpath loginBtnXpath])
  ++ [.waitUrlAway]

/-- A concrete environment in which every browser call succeeds and the
final URL has left the login flow. -/
def envOk : Env :=
  { createDriverR := .ok (), navLoginR := .ok (), waitUsernameR := .ok ()
    clearUsernameR := .ok (), sendUsernameR := .ok (), waitNextBtnR := .ok ()
    scrollNextR := .ok (), clickNextR := .ok (), jsClickNextR := .ok ()
    waitPasswordUrlR := .ok (), waitPasswordR := .ok (), clearPasswordR := .ok ()
    sendPasswordR := .ok (), waitLoginBtnR := .ok (), scrollLoginR := .ok ()
    clickLoginR := .ok (), jsClickLoginR := .ok ()
    currentUrl := "https://secure.sarsefiling.co.za/app/dashboard/organization"
    finalWaitErr := "timeout", timestamp := 0
    navDashboardR := .ok (), waitBodyR := .ok (), pageSourceR := .ok ()
    pageHtml := "", soupGetText := fun s => s, poolR := none }

/-- The payload used by concrete witnesses. -/
def payloadUP : Dict := [("username", "u"), ("password", "p")]

/-- An environment in which `create_driver` raises with message `boom`. -/
def envBoom : Env := { envOk with createDriverR := .error "boom" }

end Sars

namespace Sars

/-- Events of a fallback-free step. -/
theorem stepEvs_nofb (ev : Ev) (r : Except Err Unit) :
    stepEvs ⟨ev, r, none⟩ = [ev] := by
  cases r <;> rfl

/-- Events of a step with a fallback. -/
theorem stepEvs_fb (ev e2 : Ev) (r r2 : Except Err Unit) :
    stepEvs ⟨ev, r, some (e2, r2)⟩ = if r.isOk then [ev] else [ev, e2] := by
  cases r <;> rfl

/-- Any event a step performs is its primary event or its fallback event. -/
theorem mem_stepEvs (ev : Ev) (s : Step) (h : ev ∈ stepEvs s) :
    ev = s.ev ∨ ∃ q, s.fallback = some q ∧ ev = q.1 := by
  rcases s with ⟨e0, r0, fb0⟩
  cases r0 with
  | ok _ => simp [stepEvs] at h; exact Or.inl h
  | error _ =>
    cases fb0 with
    | none => simp [stepEvs] at h; exact Or.inl h
    | some q =>
      rcases q with ⟨e2, r2⟩
      simp [stepEvs] at h
      rcases h with h | h
      · exact Or.inl h
      · exact Or.inr ⟨⟨e2, r2⟩, rfl, h⟩

/-- `mem_stepEvs` with the step given by its fields. -/
theorem mem_stepEvs_mk (ev e0 : Ev) (r : Except Err Unit)
    (fb : Option (Ev × Except Err Unit)) (h : ev ∈ stepEvs ⟨e0, r, fb⟩) :
    ev = e0 ∨ ∃ q, fb = some q ∧ ev = q.1 :=
  mem_stepEvs ev ⟨e0, r, fb⟩ h

/-- An event avoiding a step's primary and fallback events is not
performed by it. -/
theorem not_mem_stepEvs (ev : Ev) (s : Step) (h1 : ev ≠ s.ev)
    (h2 : ∀ q, s.fallback = some q → ev ≠ q.1) : ev ∉ stepEvs s := by
  intro hmem
  rcases mem_stepEvs ev s hmem with h | ⟨q, hq, hev⟩
  · exact h1 h
  · exact h2 q hq hev

/-- Every performed event comes from some step of the list. -/
theorem runSteps_evs_mem (l : List Step) (ev : Ev) (h : ev ∈ (runSteps l).1) :
    ∃ s, s ∈ l ∧ ev ∈ stepEvs s := by
  induction l with
  | nil => simp [runSteps] at h
  | cons a rest ih =>
    cases hr : stepRes a with
    | ok u =>
      simp only [runSteps, hr] at h
      rcases List.mem_append.mp h with h | h
      · exact ⟨a, List.mem_cons_self a rest, h⟩
      · rcases ih h with ⟨s, hs, hev⟩
        exact ⟨s, List.mem_cons_of_mem a hs, hev⟩
    | error e =>
      simp only [runSteps, hr] at h
      exact ⟨a, List.mem_cons_self a rest, h⟩

/-- When the whole list succeeds, every step succeeded. -/
theorem runSteps_ok_all (l : List Step) (h : (runSteps l).2 = .ok ())
    (s : Step) (hs : s ∈ l) : stepRes s = .ok () := by
  induction l with
  | nil => cases hs
  | cons a rest ih =>
    cases hr : stepRes a with
    | ok u =>
      simp only [runSteps, hr] at h
      rcases List.mem_cons.mp hs with rfl | hs'
      · cases u; exact hr
      · exact ih h hs'
    | error e =>
      simp only [runSteps, hr] at h
      exact Except.noConfusion h

/-- When the whole list succeeds, the performed events are exactly each
step's events in order. -/
theorem runSteps_ok_evs (l : List Step) (h : (runSteps l).2 = .ok ()) :
    (runSteps l).1 = evList l := by
  induction l with
  | nil => rfl
  | cons a rest ih =>
    cases hr : stepRes a with
    | ok u =>
      simp only [runSteps, hr] at h ⊢
      rw [evList, ih h]
    | error e =>
      simp only [runSteps, hr] at h
      exact Except.noConfusion h

end Sars

namespace Sars

/-- `login_action` returns either the success dictionary or a failure
dictionary carrying a screenshot path. -/
theorem login_action_shape (env : Env) (u p : String) :
    (login_action env u p).2 = loginOkDict env ∨
    ∃ m, (login_action env u p).2 = loginFailDict env m := by
  unfold login_action loginTry
  cases hr : runSteps (loginSteps env u p) with
  | mk evs r =>
    cases r with
    | ok _ => exact Or.inl rfl
    | error e => exact Or.inr ⟨e, rfl⟩

/-- `scrape_organization_dashboard` returns either the success dictionary
or its failure dictionary. -/
theorem scrape_shape (env : Env) :
    (scrape_organization_dashboard env).2 = scrapeOkDict env ∨
    ∃ m, (scrape_organization_dashboard env).2 = scrapeFailDict m := by
  unfold scrape_organization_dashboard scrapeTry
  cases hr : runSteps (scrapeSteps env) with
  | mk evs r =>
    cases r with
    | ok _ => exact Or.inl rfl
    | error e => exact Or.inr ⟨e, rfl⟩

/-- The result value of `run_action_sync` is the body's value, with an
uncaught body exception converted by the `except` clause; the `finally`
clause does not change it. -/
theorem run_action_sync_snd (env : Env) (a : String) (payload : Dict) :
    (run_action_sync env a payload).2 =
      (match (run_action_body env a payload).2 with
       | .ok d => d
       | .error e => unexpectedDict e) := by
  unfold run_action_sync
  cases hb : run_action_body env a payload with
  | mk evs r =>
    cases r with
    | ok d => by_cases hc : env.createDriverR.isOk <;> simp [hc]
    | error e => by_cases hc : env.createDriverR.isOk <;> simp [hc]

/-- Every value the body of `run_action_sync` can produce: an uncaught
driver-construction exception, or one of the six literal dictionaries. -/
theorem run_action_body_shape (env : Env) (a : String) (payload : Dict) :
    (∃ e, (run_action_body env a payload).2 = .error e) ∨
    (run_action_body env a payload).2 = .ok missingCredsDict ∨
    (run_action_body env a payload).2 = .ok (unknownActionDict a) ∨
    (run_action_body env a payload).2 = .ok (loginOkDict env) ∨
    (∃ m, (run_action_body env a payload).2 = .ok (loginFailDict env m)) ∨
    (run_action_body env a payload).2 = .ok (scrapeOkDict env) ∨
    (∃ m, (run_action_body env a payload).2 = .ok (scrapeFailDict m)) := by
  unfold run_action_body
  cases hc : env.createDriverR with
  | error e => exact Or.inl ⟨e, rfl⟩
  | ok _ =>
    simp only
    by_cases h1 : lowerStr a = "login"
    · simp only [h1, if_pos rfl]
      by_cases h2 : (!truthy (List.lookup "username" payload)
          || !truthy (List.lookup "password" payload)) = true
      · simp [h2]
      · simp only [h2, if_neg, Bool.not_eq_true]
        simp only [Bool.not_eq_true] at h2
        rcases login_action_shape env ((List.lookup "username" payload).getD "")
            ((List.lookup "password" payload).getD "") with hs | ⟨m, hs⟩
        · simp [h2, hs]
        · simp [h2, hs]
    · rw [if_neg h1]
      by_cases h3 : lowerStr a = "scrape_dashboard"
      · rw [if_pos h3]
        by_cases h2 : (!truthy (List.lookup "username" payload)
            || !truthy (List.lookup "password" payload)) = true
        · simp [h2]
        · simp only [Bool.not_eq_true] at h2
          simp only [h2, Bool.false_eq_true, if_false]
          by_cases h4 : List.lookup "status"
              (login_action env ((List.lookup "username" payload).getD "")
                ((List.lookup "password" payload).getD "")).2 = some "ok"
          · rw [if_pos h4]
            rcases scrape_shape env with hs | ⟨m, hs⟩
            · simp [hs]
            · simp [hs]
          · rw [if_neg h4]
            rcases login_action_shape env ((List.lookup "username" payload).getD "")
                ((List.lookup "password" payload).getD "") with hs | ⟨m, hs⟩
            · simp [hs]
            · simp [hs]
      · rw [if_neg h3]
        simp

end Sars

namespace Sars

/-- The per-step events of the login sequence concatenate to the fixed
trace. -/
theorem evList_loginSteps (env : Env) (u p : String) :
    evList (loginSteps env u p) =
      loginOkTrace u p env.clickNextR.isOk env.clickLoginR.isOk := by
  cases hb1 : env.clickNextR <;> cases hb2 : env.clickLoginR <;>
    simp [loginSteps, evList, stepEvs_nofb, stepEvs_fb, loginOkTrace, hb1, hb2,
      Except.isOk, Except.toBool]

/-- The login sequence never navigates to the dashboard URL. -/
theorem login_action_no_dashboard (env : Env) (u p : String) :
    Ev.navigate dashboardUrl ∉ (login_action env u p).1 := by
  have key : Ev.navigate dashboardUrl ∉ (runSteps (loginSteps env u p)).1 := by
    intro hmem
    rcases runSteps_evs_mem _ _ hmem with ⟨s, hs, hev⟩
    simp only [loginSteps, List.mem_cons, List.not_mem_nil, or_false] at hs
    rcases hs with rfl | rfl | rfl | rfl | rfl | rfl | rfl | rfl | rfl | rfl | rfl |
      rfl | rfl | rfl | rfl | rfl | rfl <;>
      rcases mem_stepEvs_mk _ _ _ _ hev with heq | ⟨q, hq, heq⟩ <;>
      first
        | exact Ev.noConfusion heq
        | exact absurd heq (by decide)
        | exact Option.noConfusion hq
        | (injection hq with h2; subst h2; exact Ev.noConfusion heq)
  intro hmem
  unfold login_action loginTry at hmem
  cases hr : runSteps (loginSteps env u p) with
  | mk evs1 r1 =>
    rw [hr] at hmem key
    cases r1 with
    | ok _ => exact key hmem
    | error e =>
      have hmem' : Ev.navigate dashboardUrl ∈
          evs1 ++ [Ev.saveScreenshot (screenshotPath env)] := hmem
      rcases List.mem_append.mp hmem' with h | h
      · exact key h
      · exact Ev.noConfusion (List.mem_singleton.mp h)

end Sars

namespace Sars

/-- The successful login trace always ends with the final URL wait. -/
theorem loginOkTrace_getLast (u p : String) (b1 b2 : Bool) :
    (loginOkTrace u p b1 b2).getLast? = some Ev.waitUrlAway := by
  cases b1 <;> cases b2 <;>
    simp [loginOkTrace, List.getLast?_cons_cons, List.getLast?]

/-- Characterization of a successful `login_action`: the ok dictionary is
returned, the embedded final-wait condition held of the observed URL, and
the events are exactly the fixed trace. -/
theorem login_action_ok (env : Env) (u p : String) (evs : List Ev) (d : Dict)
    (h : login_action env u p = (evs, d))
    (hok : List.lookup "status" d = some "ok") :
    d = loginOkDict env ∧ loginExitCond env.currentUrl = true ∧
    evs = loginOkTrace u p env.clickNextR.isOk env.clickLoginR.isOk := by
  unfold login_action loginTry at h
  cases hr : runSteps (loginSteps env u p) with
  | mk evs1 r1 =>
    rw [hr] at h
    cases r1 with
    | error e =>
      have h2 : d = loginFailDict env e := (Prod.mk.injEq _ _ _ _ ▸ h).2.symm
      rw [h2, show List.lookup "status" (loginFailDict env e) = some "error" from rfl]
        at hok
      exact absurd hok (by decide)
    | ok uu =>
      cases uu
      injection h with h1 h2
      subst h1
      subst h2
      have hsucc : (runSteps (loginSteps env u p)).2 = .ok () := by rw [hr]
      refine ⟨rfl, ?_, ?_⟩
      · have hlast := runSteps_ok_all _ hsucc
          ⟨.waitUrlAway,
            (if loginExitCond env.currentUrl then .ok () else .error env.finalWaitErr),
            none⟩ (by simp [loginSteps])
        by_cases hc : loginExitCond env.currentUrl = true
        · exact hc
        · simp only [Bool.not_eq_true] at hc
          rw [show stepRes ⟨.waitUrlAway,
              (if loginExitCond env.currentUrl then .ok () else .error env.finalWaitErr),
              none⟩ = .error env.finalWaitErr from by simp [stepRes, hc]] at hlast
          exact Except.noConfusion hlast
      · have htr := runSteps_ok_evs _ hsucc
        rw [hr] at htr
        rw [show ((evs1, Except.ok ()) : List Ev × Except Err Unit).1 = evs1 from rfl]
          at htr
        rw [htr, evList_loginSteps]

end Sars

namespace Sars

/-- When driver construction succeeds and the body returns a value, the
`finally` clause appends the quit call and the value is passed through. -/
theorem run_action_sync_of_ok (env : Env) (a : String) (payload : Dict)
    (evs : List Ev) (d : Dict) (hc : env.createDriverR = .ok ())
    (hb : run_action_body env a payload = (evs, .ok d)) :
    run_action_sync env a payload = (evs ++ [Ev.quit], d) := by
  unfold run_action_sync
  rw [hb, hc]
  rfl

/-- With a driver and a credential missing (absent or empty) for either
handled action, the body returns the missing-credentials dictionary
immediately after creating the driver. -/
theorem run_action_body_missing (env : Env) (a : String) (payload : Dict)
    (hc : env.createDriverR = .ok ())
    (ha : lowerStr a = "login" ∨ lowerStr a = "scrape_dashboard")
    (hcred : truthy (List.lookup "username" payload) = false ∨
      truthy (List.lookup "password" payload) = false) :
    run_action_body env a payload = ([Ev.createDriver], .ok missingCredsDict) := by
  have hcond : (!truthy (List.lookup "username" payload)
      || !truthy (List.lookup "password" payload)) = true := by
    rcases hcred with h | h <;> simp [h]
  simp only [run_action_body, hc]
  rcases ha with ha | ha
  · rw [if_pos ha, if_pos hcond]
  · rw [if_neg (ha ▸ (by decide : ¬ (("scrape_dashboard" : String) = "login"))),
      if_pos ha, if_pos hcond]

/-- With a driver and an action lower-casing to neither handled name, the
body returns the unknown-action dictionary. -/
theorem run_action_body_unknown (env : Env) (a : String) (payload : Dict)
    (hc : env.createDriverR = .ok ())
    (h1 : lowerStr a ≠ "login") (h2 : lowerStr a ≠ "scrape_dashboard") :
    run_action_body env a payload = ([Ev.createDriver], .ok (unknownActionDict a)) := by
  simp only [run_action_body, hc]
  rw [if_neg h1, if_neg h2]

/-- With a driver and truthy credentials, the `scrape_dashboard` body
runs the login handler first and scrapes only when its status is ok. -/
theorem run_action_body_scrape (env : Env) (payload : Dict) (u p : String)
    (hu : List.lookup "username" payload = some u) (hu' : u ≠ "")
    (hp : List.lookup "password" payload = some p) (hp' : p ≠ "")
    (hc : env.createDriverR = .ok ()) :
    run_action_body env "scrape_dashboard" payload =
      (if List.lookup "status" (login_action env u p).2 = some "ok" then
        (Ev.createDriver ::
          ((login_action env u p).1 ++ (scrape_organization_dashboard env).1),
         .ok (scrape_organization_dashboard env).2)
      else
        (Ev.createDriver :: (login_action env u p).1,
         .ok (login_action env u p).2)) := by
  have hcond : (!truthy (List.lookup "username" payload)
      || !truthy (List.lookup "password" payload)) = false := by
    rw [hu, hp]
    simp [truthy, hu', hp']
  simp only [run_action_body, hc]
  rw [if_neg (by decide : ¬ ((lowerStr "scrape_dashboard") = "login")),
    if_pos (by decide : (lowerStr "scrape_dashboard") = "scrape_dashboard"),
    hcond, hu, hp]
  simp only [Option.getD_some, Bool.false_eq_true, if_false]

/-- The body's event trace always begins with driver construction. -/
theorem run_action_body_head (env : Env) (a : String) (payload : Dict) :
    ∃ t, (run_action_body env a payload).1 = Ev.createDriver :: t := by
  unfold run_action_body
  cases hc : env.createDriverR with
  | error e => exact ⟨[], rfl⟩
  | ok _ =>
    simp only
    by_cases h1 : lowerStr a = "login"
    · rw [if_pos h1]
      by_cases h2 : (!truthy (List.lookup "username" payload)
          || !truthy (List.lookup "password" payload)) = true
      · rw [if_pos h2]; exact ⟨[], rfl⟩
      · rw [if_neg h2]; exact ⟨_, rfl⟩
    · rw [if_neg h1]
      by_cases h3 : lowerStr a = "scrape_dashboard"
      · rw [if_pos h3]
        by_cases h2 : (!truthy (List.lookup "username" payload)
            || !truthy (List.lookup "password" payload)) = true
        · rw [if_pos h2]; exact ⟨[], rfl⟩
        · rw [if_neg h2]
          by_cases h4 : List.lookup "status"
              (login_action env ((List.lookup "username" payload).getD "")
                ((List.lookup "password" payload).getD "")).2 = some "ok"
          · rw [if_pos h4]; exact ⟨_, rfl⟩
          · rw [if_neg h4]; exact ⟨_, rfl⟩
      · rw [if_neg h3]; exact ⟨[], rfl⟩

end Sars

namespace Sars

/-- With a driver, the `finally` clause appends the quit call to the
body's trace. -/
theorem run_action_sync_quit (env : Env) (a : String) (payload : Dict)
    (hc : env.createDriverR = .ok ()) :
    (run_action_sync env a payload).1 = (run_action_body env a payload).1 ++ [Ev.quit] := by
  unfold run_action_sync
  rw [hc]
  cases hb : run_action_body env a payload with
  | mk evs r => cases r <;> rfl

/-- Without a driver, the `finally` clause does not quit. -/
theorem run_action_sync_noquit (env : Env) (a : String) (payload : Dict) (e : Err)
    (hc : env.createDriverR = .error e) :
    (run_action_sync env a payload).1 = (run_action_body env a payload).1 := by
  unfold run_action_sync
  rw [hc]
  cases hb : run_action_body env a payload with
  | mk evs r => cases r <;> rfl

/-- Every run's trace begins with the driver construction attempt. -/
theorem run_action_sync_head (env : Env) (a : String) (payload : Dict) :
    ∃ t, (run_action_sync env a payload).1 = Ev.createDriver :: t := by
  rcases run_action_body_head env a payload with ⟨t, ht⟩
  cases hcd : env.createDriverR with
  | ok u =>
    cases u
    rw [run_action_sync_quit env a payload hcd, ht]
    exact ⟨t ++ [Ev.quit], rfl⟩
  | error e =>
    rw [run_action_sync_noquit env a payload e hcd, ht]
    exact ⟨t, rfl⟩

/-- C1: for `scrape_dashboard` with truthy credentials, `run_action_sync`
performs the full login sequence first and scrapes the dashboard only
when the login result's status is `"ok"`; any other login status is
returned unchanged and the dashboard page is never navigated to. -/
theorem claim_C1_scrape_gated_on_login (env : Env) (payload : Dict) (u p : String)
    (hu : List.lookup "username" payload = some u) (hu' : u ≠ "")
    (hp : List.lookup "password" payload = some p) (hp' : p ≠ "")
    (hc : env.createDriverR = .ok ()) :
    (List.lookup "status" (login_action env u p).2 ≠ some "ok" →
      run_action_sync env "scrape_dashboard" payload =
        ((Ev.createDriver :: (login_action env u p).1) ++ [Ev.quit],
         (login_action env u p).2) ∧
      Ev.navigate dashboardUrl ∉ (run_action_sync env "scrape_dashboard" payload).1) ∧
    (List.lookup "status" (login_action env u p).2 = some "ok" →
      run_action_sync env "scrape_dashboard" payload =
        ((Ev.createDriver ::
          ((login_action env u p).1 ++ (scrape_organization_dashboard env).1)) ++
           [Ev.quit],
         (scrape_organization_dashboard env).2)) := by
  have hL := run_action_body_scrape env payload u p hu hu' hp hp' hc
  constructor
  · intro hne
    rw [if_neg hne] at hL
    have hsync := run_action_sync_of_ok env "scrape_dashboard" payload _ _ hc hL
    refine ⟨hsync, ?_⟩
    rw [hsync]
    intro hmem
    rcases List.mem_append.mp hmem with h | h
    · rcases List.mem_cons.mp h with h' | h'
      · exact Ev.noConfusion h'
      · exact login_action_no_dashboard env u p h'
    · exact Ev.noConfusion (List.mem_singleton.mp h)
  · intro heq
    rw [if_pos heq] at hL
    exact run_action_sync_of_ok env "scrape_dashboard" payload _ _ hc hL

/-- C2 (counterexample): the action string `"LOGIN"` differs from both
handled names, yet POST /run does not answer with an unknown-action
error — the case-insensitive dispatch handles it as a login and, in an
all-ok environment, reports status `"ok"`. -/
theorem claim_C2_counterexample :
    List.lookup "status"
        (run envOk ⟨.ok (some "LOGIN", [("username", "u"), ("password", "p")])⟩)
      = some "ok" ∧
    "LOGIN" ≠ "login" ∧ "LOGIN" ≠ "scrape_dashboard" := by
  refine ⟨rfl, by decide, by decide⟩

/-- C2 (amended): a missing action yields the missing-action error, and
an action whose lower-casing is neither `"login"` nor
`"scrape_dashboard"` yields the unknown-action error, provided driver
construction succeeds and the pooled task completes. -/
theorem claim_C2_dispatch (env : Env) (payload : Dict) (a : String)
    (hpool : env.poolR = none) (hc : env.createDriverR = .ok ())
    (ha0 : a ≠ "") (h1 : lowerStr a ≠ "login")
    (h2 : lowerStr a ≠ "scrape_dashboard") :
    run env ⟨.ok (none, payload)⟩ = missingActionDict ∧
    run env ⟨.ok (some a, payload)⟩ = unknownActionDict a := by
  constructor
  · rfl
  · simp only [run]
    rw [if_neg ha0, hpool, run_action_sync_snd,
      run_action_body_unknown env a payload hc h1 h2]

/-- C2 witness for the amended dispatch claim. -/
theorem claim_C2_dispatch_witness :
    run envOk ⟨.ok (none, [])⟩ = missingActionDict ∧
    run envOk ⟨.ok (some "foo", [])⟩ = unknownActionDict "foo" :=
  claim_C2_dispatch envOk [] "foo" rfl rfl (by decide) (by decide) (by decide)

end Sars

namespace Sars

/-- C1 witness: in the all-ok environment the login succeeds, so the
scrape result is returned. -/
theorem claim_C1_scrape_gated_on_login_witness :
    run_action_sync envOk "scrape_dashboard" payloadUP =
      ((Ev.createDriver ::
        ((login_action envOk "u" "p").1 ++ (scrape_organization_dashboard envOk).1)) ++
         [Ev.quit],
       (scrape_organization_dashboard envOk).2) :=
  (claim_C1_scrape_gated_on_login envOk payloadUP "u" "p" rfl (by decide) rfl
    (by decide) rfl).2 (by decide)

/-- C3: every failure dictionary carries status `"error"` and a message;
a login failure additionally carries the screenshot path, and a
`run_action_sync` error result carries a screenshot key exactly when it
is a login-failure dictionary. -/
theorem claim_C3_failure_shape (env : Env) (u p a : String) (payload : Dict) :
    ((login_action env u p).2 = loginOkDict env ∨
      ∃ m, (login_action env u p).2 = loginFailDict env m) ∧
    ((scrape_organization_dashboard env).2 = scrapeOkDict env ∨
      ∃ m, (scrape_organization_dashboard env).2 = scrapeFailDict m) ∧
    (List.lookup "status" (run_action_sync env a payload).2 = some "error" →
      (∃ m, List.lookup "message" (run_action_sync env a payload).2 = some m) ∧
      ((∃ s, List.lookup "screenshot" (run_action_sync env a payload).2 = some s) ↔
        ∃ m, (run_action_sync env a payload).2 = loginFailDict env m)) := by
  refine ⟨login_action_shape env u p, scrape_shape env, ?_⟩
  rw [run_action_sync_snd]
  rcases run_action_body_shape env a payload with
    ⟨e, hb⟩ | hb | hb | hb | ⟨m, hb⟩ | hb | ⟨m, hb⟩ <;> rw [hb] <;> intro hst
  · refine ⟨⟨"Unexpected error: " ++ e, rfl⟩, ?_, ?_⟩
    · rintro ⟨s, hs⟩
      have hs' : (none : Option String) = some s := hs
      exact Option.noConfusion hs'
    · rintro ⟨m, hm⟩
      have hm' : unexpectedDict e = loginFailDict env m := hm
      exact absurd hm' (by simp [unexpectedDict, loginFailDict])
  · refine ⟨⟨"Missing 'username' or 'password'", rfl⟩, ?_, ?_⟩
    · rintro ⟨s, hs⟩
      have hs' : (none : Option String) = some s := hs
      exact Option.noConfusion hs'
    · rintro ⟨m, hm⟩
      have hm' : missingCredsDict = loginFailDict env m := hm
      exact absurd hm' (by simp [missingCredsDict, loginFailDict])
  · refine ⟨⟨"Unknown action '" ++ a ++ "'", rfl⟩, ?_, ?_⟩
    · rintro ⟨s, hs⟩
      have hs' : (none : Option String) = some s := hs
      exact Option.noConfusion hs'
    · rintro ⟨m, hm⟩
      have hm' : unknownActionDict a = loginFailDict env m := hm
      exact absurd hm' (by simp [unknownActionDict, loginFailDict])
  · have hst' : (some "ok" : Option String) = some "error" := hst
    exact absurd hst' (by decide)
  · refine ⟨⟨"Login failed: " ++ m, rfl⟩, ?_, ?_⟩
    · intro _
      exact ⟨m, rfl⟩
    · intro _
      exact ⟨screenshotPath env, rfl⟩
  · have hst' : (some "ok" : Option String) = some "error" := hst
    exact absurd hst' (by decide)
  · refine ⟨⟨"scrape_organization_dashboard failed: " ++ m, rfl⟩, ?_, ?_⟩
    · rintro ⟨s, hs⟩
      have hs' : (none : Option String) = some s := hs
      exact Option.noConfusion hs'
    · rintro ⟨m2, hm⟩
      have hm' : scrapeFailDict m = loginFailDict env m2 := hm
      exact absurd hm' (by simp [scrapeFailDict, loginFailDict])

/-- C4 (counterexample): GET /ping answers without any `status` field,
and the successful scrape response of POST /run has no `message` field. -/
theorem claim_C4_counterexample :
    List.lookup "status" ping = none ∧
    List.lookup "message"
      (run envOk ⟨.ok (some "scrape_dashboard", payloadUP)⟩) = none :=
  ⟨rfl, rfl⟩

/-- C4 (amended): every POST /run response carries a `status` field, while
GET /ping answers with only a `message` field and no `status`. -/
theorem claim_C4_amended :
    (∀ env req, ∃ s, List.lookup "status" (run env req) = some s) ∧
    List.lookup "message" ping = some "ping - server up" ∧
    List.lookup "status" ping = none := by
  refine ⟨?_, rfl, rfl⟩
  intro env req
  rcases req with ⟨parsed⟩
  rcases parsed with e | ⟨act?, payload⟩
  · exact ⟨"error", rfl⟩
  · rcases act? with _ | a
    · exact ⟨"error", rfl⟩
    · simp only [run]
      by_cases ha : a = ""
      · rw [if_pos ha]
        exact ⟨"error", rfl⟩
      · rw [if_neg ha]
        cases hp : env.poolR with
        | some e => exact ⟨"error", rfl⟩
        | none =>
          rw [run_action_sync_snd]
          rcases run_action_body_shape env a payload with
            ⟨e, hb⟩ | hb | hb | hb | ⟨m, hb⟩ | hb | ⟨m, hb⟩ <;> rw [hb] <;>
            first
              | exact ⟨"error", rfl⟩
              | exact ⟨"ok", rfl⟩

end Sars

namespace Sars

/-- C5: when `login_action` reports status `"ok"`, it returned exactly the
success dictionary with the observed current URL, the embedded
final-wait condition (lower-cased URL contains neither login substring)
held, and the performed events are exactly the fixed source order —
wait for id `username`, type, click Next (with optional JS fallback),
wait for the password URL, wait for id `password`, type, click Login
(with optional JS fallback), and last of all the final URL wait. -/
theorem claim_C5_login_order (env : Env) (u p : String) (evs : List Ev) (d : Dict)
    (h : login_action env u p = (evs, d))
    (hok : List.lookup "status" d = some "ok") :
    d = loginOkDict env ∧ loginExitCond env.currentUrl = true ∧
    (∃ b1 b2 : Bool, evs = loginOkTrace u p b1 b2) ∧
    evs.getLast? = some Ev.waitUrlAway := by
  rcases login_action_ok env u p evs d h hok with ⟨h1, h2, h3⟩
  refine ⟨h1, h2, ⟨_, _, h3⟩, ?_⟩
  rw [h3]
  exact loginOkTrace_getLast u p _ _

/-- C5 witness: the all-ok environment yields a successful login. -/
theorem claim_C5_login_order_witness :
    (login_action envOk "u" "p").2 = loginOkDict envOk ∧
    loginExitCond envOk.currentUrl = true ∧
    (∃ b1 b2 : Bool, (login_action envOk "u" "p").1 = loginOkTrace "u" "p" b1 b2) ∧
    (login_action envOk "u" "p").1.getLast? = some Ev.waitUrlAway :=
  claim_C5_login_order envOk "u" "p" (login_action envOk "u" "p").1
    (login_action envOk "u" "p").2 rfl (by decide)

/-- C6: `run_action_sync` always hands back a dictionary whose status is
`"ok"` or `"error"`, and any exception escaping its body is converted by
the catch-all clause into the unexpected-error dictionary. -/
theorem claim_C6_total (env : Env) (a : String) (payload : Dict) :
    (List.lookup "status" (run_action_sync env a payload).2 = some "ok" ∨
     List.lookup "status" (run_action_sync env a payload).2 = some "error") ∧
    ∀ e, (run_action_body env a payload).2 = .error e →
      (run_action_sync env a payload).2 = unexpectedDict e := by
  constructor
  · rw [run_action_sync_snd]
    rcases run_action_body_shape env a payload with
      ⟨e, hb⟩ | hb | hb | hb | ⟨m, hb⟩ | hb | ⟨m, hb⟩ <;> rw [hb] <;>
      first
        | exact Or.inl rfl
        | exact Or.inr rfl
  · intro e he
    rw [run_action_sync_snd, he]

/-- C6 witness: a raising driver construction is reported, not
propagated. -/
theorem claim_C6_total_witness :
    (run_action_sync envBoom "x" []).2 = unexpectedDict "boom" :=
  (claim_C6_total envBoom "x" []).2 "boom" rfl

/-- C7: whenever the driver was constructed, the quit call is the final
event of the run's trace, on success and failure paths alike. -/
theorem claim_C7_driver_quit (env : Env) (a : String) (payload : Dict)
    (hc : env.createDriverR = .ok ()) :
    ∃ evs d, run_action_sync env a payload = (evs ++ [Ev.quit], d) ∧
      (run_action_sync env a payload).1.getLast? = some Ev.quit := by
  refine ⟨(run_action_body env a payload).1, (run_action_sync env a payload).2,
    ?_, ?_⟩
  · exact Prod.ext (run_action_sync_quit env a payload hc) rfl
  · rw [run_action_sync_quit env a payload hc, List.getLast?_append_cons]
    rfl

/-- C7 witness. -/
theorem claim_C7_driver_quit_witness :
    ∃ evs d, run_action_sync envOk "login" payloadUP = (evs ++ [Ev.quit], d) ∧
      (run_action_sync envOk "login" payloadUP).1.getLast? = some Ev.quit :=
  claim_C7_driver_quit envOk "login" payloadUP rfl

/-- C8: for either handled action (matched case-insensitively), a missing
or empty username or password yields exactly the missing-credentials
error, with the browser created and quit and nothing else performed. -/
theorem claim_C8_missing_credentials (env : Env) (a : String) (payload : Dict)
    (hc : env.createDriverR = .ok ())
    (ha : lowerStr a = "login" ∨ lowerStr a = "scrape_dashboard")
    (hcred : truthy (List.lookup "username" payload) = false ∨
      truthy (List.lookup "password" payload) = false) :
    run_action_sync env a payload = ([Ev.createDriver, Ev.quit], missingCredsDict) := by
  exact run_action_sync_of_ok env a payload _ _ hc
    (run_action_body_missing env a payload hc ha hcred)

/-- C8 witness: the upper-cased action `"LOGIN"` with an empty payload. -/
theorem claim_C8_missing_credentials_witness :
    run_action_sync envOk "LOGIN" [] = ([Ev.createDriver, Ev.quit], missingCredsDict) :=
  claim_C8_missing_credentials envOk "LOGIN" [] rfl (Or.inl (by decide)) (Or.inl rfl)

/-- C9: serving any sequence of requests leaves `persistent_driver` as
`None` — no endpoint reads or writes it — while every run constructs its
own fresh driver as its first browser event. -/
theorem claim_C9_no_shared_state (env : Env) (reqs : List ServerReq)
    (a : String) (payload : Dict) :
    serverRun env reqs none = none ∧
    (run_action_sync env a payload).1.head? = some Ev.createDriver := by
  constructor
  · induction reqs with
    | nil => rfl
    | cons r rest ih => cases r <;> exact ih
  · rcases run_action_sync_head env a payload with ⟨t, ht⟩
    rw [ht]
    rfl

end Sars

namespace Sars

/-- C3 witness at a concrete environment, action and payload. -/
theorem claim_C3_failure_shape_witness :
    ((login_action envOk "u" "p").2 = loginOkDict envOk ∨
      ∃ m, (login_action envOk "u" "p").2 = loginFailDict envOk m) ∧
    ((scrape_organization_dashboard envOk).2 = scrapeOkDict envOk ∨
      ∃ m, (scrape_organization_dashboard envOk).2 = scrapeFailDict m) ∧
    (List.lookup "status" (run_action_sync envOk "x" []).2 = some "error" →
      (∃ m, List.lookup "message" (run_action_sync envOk "x" []).2 = some m) ∧
      ((∃ s, List.lookup "screenshot" (run_action_sync envOk "x" []).2 = some s) ↔
        ∃ m, (run_action_sync envOk "x" []).2 = loginFailDict envOk m)) :=
  claim_C3_failure_shape envOk "u" "p" "x" []

end Sars
